import Mathlib

/-!
Shallow embedding of the two serverless price-prediction handlers of the
repository: the enhanced handler in `src/netlify/functions/predict.js`
(modelled as `handlerE`) and the simpler first version in `src/unnamed/part_000`
(modelled as `handlerS`).  JSON values are modelled by `JVal`; platform
functions that the handlers call (`JSON.parse`, the clock, the HTTP transport)
are passed in explicitly, so each handler is a pure function from
(parse oracle, environment, event, upstream behaviour, clock) to
(response, list of outbound upstream calls).
-/

/-- JSON values.  Numbers are modelled as rationals: every field a claim
compares is a finite decimal, and floating point itself is out of scope. -/
inductive JVal where
  | jnull : JVal
  | jbool : Bool → JVal
  | jnum : ℚ → JVal
  | jstr : String → JVal
  | jarr : List JVal → JVal
  | jobj : List (String × JVal) → JVal

/-- First binding of a key in an object field list.  Field lists produced by
`JSON.parse` are duplicate-free, so first-match lookup agrees with JS. -/
def lookupField : List (String × JVal) → String → Option JVal
  | [], _ => none
  | (k2, v) :: rest, k => if k2 == k then some v else lookupField rest k

/-- Property read `j[k]` as used in the handlers, returning `none` for the JS
`undefined`.  Reads on non-objects yield `undefined` (the handlers only read
plain names, never array indices, outside the optional chains). -/
def getField : JVal → String → Option JVal
  | .jobj fs, k => lookupField fs k
  | _, _ => none

/-- Update the first binding of `k`, or append a new one: JS property
assignment on an object. -/
def setFieldList : List (String × JVal) → String → JVal → List (String × JVal)
  | [], k, v => [(k, v)]
  | (k2, v2) :: rest, k, v =>
    if k2 == k then (k, v) :: rest else (k2, v2) :: setFieldList rest k v

/-- JS truthiness of a defined value. -/
def truthy : JVal → Bool
  | .jnull => false
  | .jbool b => b
  | .jnum q => !(decide (q = 0))
  | .jstr s => !(s == "")
  | .jarr _ => true
  | .jobj _ => true

/-- JS truthiness where `none` is `undefined`. -/
def truthyO : Option JVal → Bool
  | none => false
  | some v => truthy v

/-- The `typeof v === "string"` test. -/
def isStringO : Option JVal → Bool
  | some (.jstr _) => true
  | _ => false

/-- Underlying string of a string value (only read after the `typeof` guard in
the handlers, so the default is never observable). -/
def strValO : Option JVal → String
  | some (.jstr s) => s
  | _ => ""

/-- The comparison `v < 0` of the handlers.  `undefined < 0` is false, and a
number compares numerically.  ToNumber coercion of strings and objects inside
relational operators is not modelled: every claim compares numeric fields. -/
def ltZeroO : Option JVal → Bool
  | some (.jnum q) => decide (q < 0)
  | _ => false

/-- Optional chaining step `o?.[k]`: propagate `undefined`, read off objects,
yield `undefined` on primitives (no throw, matching `?.`). -/
def optGet (o : Option JVal) (k : String) : Option JVal :=
  match o with
  | some (.jobj fs) => lookupField fs k
  | _ => none

/-- Optional chaining step `o?.[0]`. -/
def optIdx0 (o : Option JVal) : Option JVal :=
  match o with
  | some (.jarr (x :: _)) => some x
  | _ => none

/-- Property read `j.k` outside an optional chain: reading off `null` throws a
TypeError (caught by the enclosing handler `catch`), primitives give
`undefined`, objects look the key up. -/
def readProp (j : JVal) (k : String) : Except String (Option JVal) :=
  match j with
  | .jnull => .error "Cannot read properties of null"
  | .jobj fs => .ok (lookupField fs k)
  | _ => .ok none

/-- Property assignment `j.k = v`.  On an object it updates the field list; on
an array the named property is set but is invisible both to the later named
reads and to `JSON.stringify`, so the value is unchanged; on a primitive the
assignment throws a TypeError (the function files are strict-mode modules). -/
def setProp (j : JVal) (k : String) (v : JVal) : Except String JVal :=
  match j with
  | .jobj fs => .ok (.jobj (setFieldList fs k v))
  | .jarr xs => .ok (.jarr xs)
  | _ => .error "Cannot create property on a primitive value"

/-- String coercion of the generated text before `JSON.parse`.  Only string
payloads are modelled precisely; every claim exercises string completions. -/
def jsToString : JVal → String
  | .jstr s => s
  | _ => ""

/-- The JS `s.substring(0, n)` (claims only use ASCII payloads, where
code points and UTF-16 units agree). -/
def jsSubstring (s : String) (n : Nat) : String :=
  ⟨s.data.take n⟩

/-- The JS `s.trim()`, stripping leading and trailing whitespace, defined
structurally on the character list so that it evaluates inside the kernel
(the claims only exercise ASCII whitespace). -/
def jsTrim (s : String) : String :=
  ⟨((s.data.dropWhile Char.isWhitespace).reverse.dropWhile Char.isWhitespace).reverse⟩

/-- Prefix test on character lists. -/
def prefMatch : List Char → List Char → Bool
  | [], _ => true
  | _ :: _, [] => false
  | a :: as, b :: bs => a == b && prefMatch as bs

/-- Occurrence of `pat` as a contiguous substring of the character list. -/
def occursIn (pat : List Char) : List Char → Bool
  | [] => pat.isEmpty
  | c :: rest => prefMatch pat (c :: rest) || occursIn pat rest

/-- Substring occurrence on strings. -/
def containsStr (s pat : String) : Bool :=
  occursIn pat.data s.data

/-- Inbound platform event: the HTTP method and the raw body (`none` is a
missing body, JS `null`/`undefined`). -/
structure Event where
  httpMethod : String
  body : Option String

/-- Behaviour of the single upstream `fetch`: either the transport rejects
(a network error with its reason), or the service replies with a status, a
status text, and the result of reading the reply body as JSON (`none` when
`response.json()` would throw). -/
inductive Upstream where
  | netError : String → Upstream
  | reply : Nat → String → Option JVal → Upstream

/-- Response returned by a handler: status code, header list, and the object
passed to `JSON.stringify` as the body. -/
structure Response where
  statusCode : Nat
  headers : List (String × String)
  body : JVal

/-- Record of one outbound call to the AI service: the request URL (which
embeds the credential as a query parameter) and the trimmed specs string
embedded in the user query of the prompt payload. -/
structure Outbound where
  url : String
  promptSpecs : String

/-- The fixed CORS header set both source files attach to every response. -/
def headers : List (String × String) :=
  [("Access-Control-Allow-Origin", "*"),
   ("Access-Control-Allow-Headers", "Content-Type"),
   ("Access-Control-Allow-Methods", "POST, OPTIONS"),
   ("Content-Type", "application/json")]

/-- Base of the Gemini endpoint URL; the credential is appended to it. -/
def apiBase : String :=
  "https://generativelanguage.googleapis.com/v1beta/models/gemini-2.0-flash-exp:generateContent?key="

/-- The argument of the body parse: `event.body || "\x7b\x7d"` (a missing or
empty body falls back to the empty-object literal). -/
def requestRaw (event : Event) : String :=
  match event.body with
  | none => "\x7b\x7d"
  | some b => if b == "" then "\x7b\x7d" else b

/-- The `ok` test of a fetch response: status in [200, 300). -/
def isOkStatus (status : Nat) : Bool :=
  200 ≤ status && status < 300

/-- Message of the `Error` thrown by the enhanced handler when a critical
field is absent (by truthiness) from the parsed AI result. -/
def missingFieldsMsg : String := "Missing required fields in AI response"

/-- Message of the `Error` thrown by the enhanced handler when a price field
of the parsed AI result is negative. -/
def negativePricesMsg : String := "Invalid negative prices in AI response"

/-- User message of the enhanced handler for upstream status 429. -/
def tooManyMsg : String := "Too many requests. Please wait a moment and try again."

/-- User message of the enhanced handler for upstream status 403. -/
def accessRestrictedMsg : String := "API access restricted. Please contact support."

/-- Generic user message of the enhanced handler for other upstream failures. -/
def unavailableMsg : String := "AI service temporarily unavailable. Please try again."

/-- Validation message of the enhanced handler for an absent or empty specs. -/
def missingSpecsMsgE : String :=
  "Product specifications are required and must be a non-empty string."

/-- Validation message of the enhanced handler for an overlong specs. -/
def specsTooLongMsgE : String :=
  "Product specifications are too long. Please limit to 2000 characters."

/-- Error message of the enhanced handler when the generated text is not
parseable or fails the field checks. -/
def aiFormatErrMsg : String :=
  "AI response format error. Please try again with clearer product specifications."

/-- Response of the enhanced handler when the credential is unset. -/
def missingKeyRespE : Response :=
  ⟨500, headers, .jobj [("error", .jstr "Server configuration error. API key not available."),
    ("code", .jstr "MISSING_API_KEY")]⟩

/-- Catch-all 500 of the enhanced handler: a fixed generic body that discards
the caught error message and carries only the current timestamp. -/
def serverErrorRespE (now : String) : Response :=
  ⟨500, headers, .jobj [("error", .jstr "Internal server error. Please try again later."),
    ("code", .jstr "SERVER_ERROR"), ("timestamp", .jstr now)]⟩

/-- Missing-specs 400 of the enhanced handler. -/
def missingSpecsRespE : Response :=
  ⟨400, headers, .jobj [("error", .jstr missingSpecsMsgE),
    ("example", .jstr "iPhone 15 Pro 256GB used condition")]⟩

/-- Too-long 400 of the enhanced handler. -/
def specsTooLongRespE : Response :=
  ⟨400, headers, .jobj [("error", .jstr specsTooLongMsgE)]⟩

/-- No-generated-text 500 of the enhanced handler. -/
def noAiRespE : Response :=
  ⟨500, headers, .jobj [("error", .jstr "AI model did not generate a response. Please try with different product specifications."),
    ("code", .jstr "NO_AI_RESPONSE")]⟩

/-- AI-JSON failure 500 of the enhanced handler, carrying the caught error
message in `details` (there is no raw-text excerpt in this handler). -/
def aiJsonErrRespE (em : String) : Response :=
  ⟨500, headers, .jobj [("error", .jstr aiFormatErrMsg),
    ("code", .jstr "INVALID_AI_JSON"), ("details", .jstr em)]⟩

/-- Upstream-failure response of the enhanced handler (lines 242-273 of
`predict.js`): the upstream status is propagated, the user message is mapped
from well-known statuses, and `details` echoes `errorDetails?.error?.message`
falling back to the status text. -/
def upstreamErrRespE (status : Nat) (statusText : String) (jsonBody : Option JVal) : Response :=
  let errorDetails : JVal :=
    match jsonBody with
    | some j => j
    | none => .jobj [("message", .jstr statusText)]
  let userMessage : String :=
    if status == 429 then tooManyMsg
    else if status == 403 then accessRestrictedMsg
    else unavailableMsg
  let details : JVal :=
    match optGet (optGet (some errorDetails) "error") "message" with
    | some v => if truthy v then v else .jstr statusText
    | none => .jstr statusText
  ⟨status, headers, .jobj [("error", .jstr userMessage),
    ("code", .jstr ("GEMINI_" ++ toString status)),
    ("details", details)]⟩

/-- Extraction of the generated text from the service envelope:
`aiData?.candidates?.[0]?.content?.parts?.[0]?.text`. -/
def extractGenText (aiData : JVal) : Option JVal :=
  optGet (optIdx0 (optGet (optGet (optIdx0 (optGet (some aiData) "candidates")) "content") "parts")) "text"

/-- Sanitation of the generated text in the enhanced handler (the inner `try`
of lines 292-324): parse, inject `last_updated` when falsy, then check the
three critical fields by truthiness and the three price fields for
negativity.  Any thrown error surfaces as `.error` with its message. -/
def sanitizeE (jparse : String → Except String JVal) (now : String) (g : String) :
    Except String JVal :=
  match jparse g with
  | .error m => .error m
  | .ok result =>
    match readProp result "last_updated" with
    | .error m => .error m
    | .ok lu =>
      match (if truthyO lu then .ok result else setProp result "last_updated" (.jstr now) :
          Except String JVal) with
      | .error m => .error m
      | .ok r =>
        if !(truthyO (getField r "predicted_price_inr")) ||
            !(truthyO (getField r "range_inr")) ||
            !(truthyO (getField r "product")) then
          .error missingFieldsMsg
        else if ltZeroO (getField r "predicted_price_inr") ||
            ltZeroO (optGet (getField r "range_inr") "min") ||
            ltZeroO (optGet (getField r "range_inr") "max") then
          .error negativePricesMsg
        else
          .ok r

/-- Post-fetch part of the enhanced handler on a successful upstream status:
extract the generated text, fail with `NO_AI_RESPONSE` when it is falsy,
otherwise sanitize it; a sanitation error yields the `INVALID_AI_JSON` 500
and success returns 200 with the sanitized object. -/
def genPathE (jparse : String → Except String JVal) (now : String) (aiData : JVal) : Response :=
  let genText := extractGenText aiData
  if !(truthyO genText) then noAiRespE
  else
    match sanitizeE jparse now (jsToString (genText.getD .jnull)) with
    | .error em => aiJsonErrRespE em
    | .ok result => ⟨200, headers, result⟩

/-- Response of the enhanced handler from the fetch onwards (lines 229-331 of
`predict.js`; the credential is used only in the request URL, never in this
part): a transport rejection or a throwing `response.json()` lands in the
top-level catch, a non-ok status is mapped by `upstreamErrRespE`, and an ok
status proceeds to the generated-text path. -/
def respPartE (jparse : String → Except String JVal) (now : String) (up : Upstream) : Response :=
  match up with
  | .netError _ => serverErrorRespE now
  | .reply status statusText jsonBody =>
    if !(isOkStatus status) then upstreamErrRespE status statusText jsonBody
    else
      match jsonBody with
      | none => serverErrorRespE now
      | some aiData => genPathE jparse now aiData

/-- The enhanced handler of `src/netlify/functions/predict.js`, as a function
from (JSON.parse oracle, GEMINI_API_KEY, event, upstream behaviour, current
ISO timestamp) to the response and the list of outbound upstream calls.
Destructuring `specs` from a null body throws, landing in the top-level
catch. -/
def handlerE (jparse : String → Except String JVal) (apiKey : Option String)
    (event : Event) (up : Upstream) (now : String) : Response × List Outbound :=
  if event.httpMethod == "OPTIONS" then
    (⟨200, headers, .jobj [("message", .jstr "CORS preflight")]⟩, [])
  else if !(event.httpMethod == "POST") then
    (⟨405, headers, .jobj [("error", .jstr "Method Not Allowed. Only POST requests are supported."),
      ("allowedMethods", .jarr [.jstr "POST"])]⟩, [])
  else
    match jparse (requestRaw event) with
    | .error pm =>
      (⟨400, headers, .jobj [("error", .jstr "Invalid JSON in request body."),
        ("details", .jstr pm)]⟩, [])
    | .ok requestBody =>
      match requestBody with
      | .jnull => (serverErrorRespE now, [])
      | _ =>
        let specs := getField requestBody "specs"
        if !(truthyO specs) || !(isStringO specs) || jsTrim (strValO specs) == "" then
          (missingSpecsRespE, [])
        else
          let s := strValO specs
          if 2000 < (jsTrim s).length then
            (specsTooLongRespE, [])
          else
            match apiKey with
            | none => (missingKeyRespE, [])
            | some key =>
              if key == "" then (missingKeyRespE, [])
              else
                (respPartE jparse now up, [⟨apiBase ++ key, jsTrim s⟩])

/-- Message of the rejection node-fetch produces when the request cannot be
issued: a `FetchError` whose message embeds the full request URL (and with it
the credential query parameter) followed by the transport reason. -/
def fetchFailMsg (url reason : String) : String :=
  "request to " ++ url ++ " failed, reason: " ++ reason

/-- Message of the `FetchError` thrown by `response.json()` on an unparseable
reply body; node-fetch also embeds the request URL here. -/
def jsonBodyFailMsg (url : String) : String :=
  "invalid json response body at " ++ url ++ " reason: Unexpected token"

/-- Message of the TypeError raised by `const { specs } = body` when the
parsed body is JSON null (engine wordings differ; no claim depends on it). -/
def destructureNullMsg : String := "Cannot destructure property specs of null"

/-- Catch-all 500 of the simple handler: unlike the enhanced handler it
echoes the caught error message in the body. -/
def serverErrorRespS (msg : String) : Response :=
  ⟨500, headers, .jobj [("error", .jstr "Internal server error"),
    ("message", .jstr msg)]⟩

/-- Missing-specs 400 of the simple handler. -/
def missingSpecsRespS : Response :=
  ⟨400, headers, .jobj [("error", .jstr "Product specifications are required and must be a non-empty string")]⟩

/-- Configuration-error 500 of the simple handler. -/
def missingKeyRespS : Response :=
  ⟨500, headers, .jobj [("error", .jstr "Server configuration error")]⟩

/-- Upstream-failure response of the simple handler: the status is relayed
but the message is the same fixed string for every failing status. -/
def upstreamErrRespS (status : Nat) : Response :=
  ⟨status, headers, .jobj [("error", .jstr "AI service error"),
    ("details", .jstr ("HTTP " ++ toString status))]⟩

/-- AI-JSON failure 500 of the simple handler, carrying the first 200
characters of the raw generated text in `raw_response`. -/
def aiJsonErrRespS (g : String) : Response :=
  ⟨500, headers, .jobj [("error", .jstr "Invalid AI response format"),
    ("raw_response", .jstr (jsSubstring g 200))]⟩

/-- Response of the simple handler from the fetch onwards (lines 99-151 of
the first-version file).  The simple handler does not validate or repair the
parsed result: a successful parse is returned verbatim with 200. -/
def respPartS (jparse : String → Except String JVal) (apiUrl : String) (up : Upstream) : Response :=
  match up with
  | .netError reason => serverErrorRespS (fetchFailMsg apiUrl reason)
  | .reply status _statusText jsonBody =>
    if !(isOkStatus status) then upstreamErrRespS status
    else
      match jsonBody with
      | none => serverErrorRespS (jsonBodyFailMsg apiUrl)
      | some aiData =>
        let genText := extractGenText aiData
        if !(truthyO genText) then
          ⟨500, headers, .jobj [("error", .jstr "No AI response generated")]⟩
        else
          let g := jsToString (genText.getD .jnull)
          match jparse g with
          | .error _ => aiJsonErrRespS g
          | .ok result => ⟨200, headers, result⟩

/-- The simple first-version handler of `src/unnamed/part_000`: no specs
length bound, no user-message mapping for upstream statuses, no result
validation, no timestamp injection, and a catch-all that echoes the caught
error message. -/
def handlerS (jparse : String → Except String JVal) (apiKey : Option String)
    (event : Event) (up : Upstream) (_now : String) : Response × List Outbound :=
  if event.httpMethod == "OPTIONS" then
    (⟨200, headers, .jobj [("message", .jstr "CORS preflight")]⟩, [])
  else if !(event.httpMethod == "POST") then
    (⟨405, headers, .jobj [("error", .jstr "Method Not Allowed")]⟩, [])
  else
    match jparse (requestRaw event) with
    | .error _ =>
      (⟨400, headers, .jobj [("error", .jstr "Invalid JSON in request body")]⟩, [])
    | .ok body =>
      match body with
      | .jnull => (serverErrorRespS destructureNullMsg, [])
      | _ =>
        let specs := getField body "specs"
        if !(truthyO specs) || !(isStringO specs) || jsTrim (strValO specs) == "" then
          (missingSpecsRespS, [])
        else
          let s := strValO specs
          match apiKey with
          | none => (missingKeyRespS, [])
          | some key =>
            if key == "" then (missingKeyRespS, [])
            else
              (respPartS jparse (apiBase ++ key) up, [⟨apiBase ++ key, jsTrim s⟩])

/-- Value-is-a-string test. -/
def isStrV : JVal → Bool
  | .jstr _ => true
  | _ => false

/-- Schema test for a nonnegative number field. -/
def nonnegNum : Option JVal → Bool
  | some (.jnum q) => decide (0 ≤ q)
  | _ => false

/-- Comparison `min ≤ max` of two numeric fields. -/
def rangeLe : Option JVal → Option JVal → Bool
  | some (.jnum a), some (.jnum b) => decide (a ≤ b)
  | _, _ => false

/-- Schema test for the `range_inr` object: numeric nonnegative `min` and
`max` with `min ≤ max`. -/
def goodRange : Option JVal → Bool
  | some (.jobj rs) =>
    nonnegNum (lookupField rs "min") && nonnegNum (lookupField rs "max") &&
      rangeLe (lookupField rs "min") (lookupField rs "max")
  | _ => false

/-- Schema test for a number in [0, 1]. -/
def unitNum : Option JVal → Bool
  | some (.jnum q) => decide (0 ≤ q) && decide (q ≤ 1)
  | _ => false

/-- Schema test for a present string field. -/
def isStrField : Option JVal → Bool
  | some (.jstr _) => true
  | _ => false

/-- Schema test for a string-to-string mapping. -/
def isStrMap : Option JVal → Bool
  | some (.jobj gs) => gs.all (fun p => isStrV p.2)
  | _ => false

/-- Schema test for an array of strings with a bounded length. -/
def strArrLen (lo hi : Nat) : Option JVal → Bool
  | some (.jarr xs) => xs.all isStrV && decide (lo ≤ xs.length) && decide (xs.length ≤ hi)
  | _ => false

/-- Schema test for an array of strings of any length. -/
def strArrAny : Option JVal → Bool
  | some (.jarr xs) => xs.all isStrV
  | _ => false

/-- Schema test for an optional string field. -/
def optStrField : Option JVal → Bool
  | none => true
  | some (.jstr _) => true
  | _ => false

/-- Modelled from the spec: conformance to the `PredictionResult` schema of
section 3 of the specification — `predicted_price_inr` a number ≥ 0,
`range_inr` an object of nonnegative `min ≤ max`, `confidence` in [0, 1],
`product` and `category` strings, `specs_extracted` a string mapping,
`explanation_bullets` 3-8 strings, `anomalies` and `market_sources` string
arrays, and `last_updated` a string when present (the ISO-8601 shape of the
timestamp is not analysed further).  `last_updated` is allowed to be absent
because the claims discuss its injection. -/
def conformsPR (j : JVal) : Bool :=
  match j with
  | .jobj fs =>
    nonnegNum (lookupField fs "predicted_price_inr") &&
    goodRange (lookupField fs "range_inr") &&
    unitNum (lookupField fs "confidence") &&
    isStrField (lookupField fs "product") &&
    isStrField (lookupField fs "category") &&
    isStrMap (lookupField fs "specs_extracted") &&
    strArrLen 3 8 (lookupField fs "explanation_bullets") &&
    strArrAny (lookupField fs "anomalies") &&
    strArrAny (lookupField fs "market_sources") &&
    optStrField (lookupField fs "last_updated")
  | _ => false

/-- Timestamp repair applied by the enhanced handler to an object result:
keep the object when `last_updated` is truthy, otherwise set it to the
current timestamp. -/
def injectTimestamp (j : JVal) (now : String) : JVal :=
  if truthyO (getField j "last_updated") then j
  else
    match setProp j "last_updated" (.jstr now) with
    | .ok r => r
    | .error _ => j

/-- Service envelope wrapping a generated text, with the shape the handlers
destructure: `candidates[0].content.parts[0].text`. -/
def mkAiData (g : String) : JVal :=
  .jobj [("candidates", .jarr [.jobj [("content",
    .jobj [("parts", .jarr [.jobj [("text", .jstr g)]])])]])]

/-- The empty-object body literal. -/
def emptyObjStr : String := "\x7b\x7d"

theorem lookup_set_eq (fs : List (String × JVal)) (k : String) (v : JVal) :
    lookupField (setFieldList fs k v) k = some v := by
  induction fs with
  | nil => simp [setFieldList, lookupField]
  | cons p rest ih =>
    obtain ⟨k2, v2⟩ := p
    by_cases h : (k2 == k) = true
    · simp [setFieldList, h, lookupField]
    · have hf : (k2 == k) = false := by simpa using h
      simp [setFieldList, hf, lookupField, ih]

theorem lookup_set_ne (fs : List (String × JVal)) (k k2 : String) (v : JVal)
    (h : (k2 == k) = false) :
    lookupField (setFieldList fs k v) k2 = lookupField fs k2 := by
  have hne : k2 ≠ k := by simpa using h
  have hf : (k == k2) = false := by simpa using Ne.symm hne
  induction fs with
  | nil => simp [setFieldList, lookupField, hf]
  | cons p rest ih =>
    obtain ⟨k3, v3⟩ := p
    by_cases h3 : (k3 == k) = true
    · have hk3 : k3 = k := by simpa using h3
      subst hk3
      simp [setFieldList, lookupField, hf]
    · have h3f : (k3 == k) = false := by simpa using h3
      simp [setFieldList, h3f, lookupField, ih]

theorem extractGenText_mk (g : String) :
    extractGenText (mkAiData g) = some (.jstr g) := rfl

/-- Under a POST event whose body parses to an object with a valid specs
string and with the credential set, the enhanced handler issues the upstream
call and its outcome is `respPartE`. -/
theorem handlerE_valid (jparse : String → Except String JVal) (event : Event)
    (up : Upstream) (now : String) (fs : List (String × JVal)) (s k : String)
    (hm : event.httpMethod = "POST")
    (hb : jparse (requestRaw event) = .ok (.jobj fs))
    (hs : lookupField fs "specs" = some (.jstr s))
    (ht : jsTrim s ≠ "")
    (hl : (jsTrim s).length ≤ 2000)
    (hk2 : k ≠ "") :
    handlerE jparse (some k) event up now =
      (respPartE jparse now up, [⟨apiBase ++ k, jsTrim s⟩]) := by
  have hse : s ≠ "" := by
    intro h
    apply ht
    rw [h]
    rfl
  have hne : (s == "") = false := by simpa using hse
  have htr : (jsTrim s == "") = false := by simpa using ht
  have hkne : (k == "") = false := by simpa using hk2
  simp only [handlerE, hm, hb]
  simp [getField, hs, truthyO, truthy, isStringO, strValO, hne, htr,
    Nat.not_lt.mpr hl, hkne]

/-- The analogue of `handlerE_valid` for the simple handler (which has no
length bound on the specs). -/
theorem handlerS_valid (jparse : String → Except String JVal) (event : Event)
    (up : Upstream) (now : String) (fs : List (String × JVal)) (s k : String)
    (hm : event.httpMethod = "POST")
    (hb : jparse (requestRaw event) = .ok (.jobj fs))
    (hs : lookupField fs "specs" = some (.jstr s))
    (ht : jsTrim s ≠ "")
    (hk2 : k ≠ "") :
    handlerS jparse (some k) event up now =
      (respPartS jparse (apiBase ++ k) up, [⟨apiBase ++ k, jsTrim s⟩]) := by
  have hse : s ≠ "" := by
    intro h
    apply ht
    rw [h]
    rfl
  have hne : (s == "") = false := by simpa using hse
  have htr : (jsTrim s == "") = false := by simpa using ht
  have hkne : (k == "") = false := by simpa using hk2
  simp only [handlerS, hm, hb]
  simp [getField, hs, truthyO, truthy, isStringO, strValO, hne, htr, hkne]

/-- On an ok upstream status whose envelope carries a nonempty generated
text, the enhanced handler's post-fetch response is decided by `sanitizeE`. -/
theorem respPartE_ok (jparse : String → Except String JVal) (now : String)
    (st : Nat) (stx : String) (g : String)
    (hok : isOkStatus st = true) (hg : g ≠ "") :
    respPartE jparse now (.reply st stx (some (mkAiData g))) =
      (match sanitizeE jparse now g with
       | .error em => aiJsonErrRespE em
       | .ok result => ⟨200, headers, result⟩) := by
  have hgne : (g == "") = false := by simpa using hg
  simp [respPartE, hok, genPathE, extractGenText_mk, truthyO, truthy, hgne, jsToString]

/-- Raw request body used by the concrete scenarios. -/
def specsBody : String := "\x7b\"specs\":\"phone\"\x7d"

/-- Fields of a schema-conforming AI result with a positive price and no
`last_updated`. -/
def pr1Fields : List (String × JVal) :=
  [("predicted_price_inr", .jnum 50000),
    ("range_inr", .jobj [("min", .jnum 45000), ("max", .jnum 55000)]),
    ("confidence", .jnum 1),
    ("product", .jstr "Phone"),
    ("category", .jstr "Electronics"),
    ("specs_extracted", .jobj [("storage", .jstr "256GB")]),
    ("explanation_bullets", .jarr [.jstr "a", .jstr "b", .jstr "c"]),
    ("anomalies", .jarr []),
    ("market_sources", .jarr [.jstr "Amazon India"])]

/-- A schema-conforming AI result with a positive price and no
`last_updated`. -/
def pr1 : JVal := .jobj pr1Fields

/-- A schema-conforming AI result whose `predicted_price_inr` is 0. -/
def pr0 : JVal :=
  .jobj [("predicted_price_inr", .jnum 0),
    ("range_inr", .jobj [("min", .jnum 0), ("max", .jnum 0)]),
    ("confidence", .jnum 1),
    ("product", .jstr "Freebie"),
    ("category", .jstr "Electronics"),
    ("specs_extracted", .jobj []),
    ("explanation_bullets", .jarr [.jstr "a", .jstr "b", .jstr "c"]),
    ("anomalies", .jarr []),
    ("market_sources", .jarr [])]

/-- An AI result carrying a negative `range_inr.min` while also missing the
`product` field. -/
def prNeg : JVal :=
  .jobj [("predicted_price_inr", .jnum 100),
    ("range_inr", .jobj [("min", .jnum (-1)), ("max", .jnum 100)])]

/-- Fields of an AI result with all three critical fields present but a
negative `range_inr.min`. -/
def prNeg2Fields : List (String × JVal) :=
  [("predicted_price_inr", .jnum 100),
    ("range_inr", .jobj [("min", .jnum (-1)), ("max", .jnum 100)]),
    ("product", .jstr "Phone")]

/-- Concrete parse oracle for the scenarios: behaves as `JSON.parse` on the
handful of texts they use and rejects everything else. -/
def jparseFix : String → Except String JVal := fun t =>
  if t == emptyObjStr then .ok (.jobj [])
  else if t == specsBody then .ok (.jobj [("specs", .jstr "phone")])
  else if t == "gen1" then .ok pr1
  else if t == "gen0" then .ok pr0
  else if t == "genNeg" then .ok prNeg
  else if t == "genNeg2" then .ok (.jobj prNeg2Fields)
  else .error "Unexpected token"

/-- Concrete valid POST event. -/
def ev0 : Event := ⟨"POST", some specsBody⟩

/-- Successful upstream reply wrapping a generated text. -/
def okUp (g : String) : Upstream := .reply 200 "OK" (some (mkAiData g))

theorem respPartE_headers (jparse : String → Except String JVal) (now : String)
    (up : Upstream) : (respPartE jparse now up).headers = headers := by
  cases up with
  | netError r => rfl
  | reply st stx jb =>
    simp only [respPartE]
    split
    · rfl
    · cases jb with
      | none => rfl
      | some aiData =>
        simp only [genPathE]
        split
        · rfl
        · split <;> rfl

theorem respPartS_headers (jparse : String → Except String JVal) (apiUrl : String)
    (up : Upstream) : (respPartS jparse apiUrl up).headers = headers := by
  cases up with
  | netError r => rfl
  | reply st stx jb =>
    simp only [respPartS]
    repeat' split
    all_goals rfl

/-- C8: every response of either handler, on every path (preflight, method
rejection, each validation failure, configuration failure, every upstream
behaviour, sanitation failure, success, and both catch-alls) carries exactly
the fixed CORS header set. -/
theorem c8_cors_invariant (jparse : String → Except String JVal)
    (apiKey : Option String) (event : Event) (up : Upstream) (now : String) :
    (handlerE jparse apiKey event up now).1.headers = headers ∧
    (handlerS jparse apiKey event up now).1.headers = headers := by
  constructor
  · simp only [handlerE]
    repeat' split
    all_goals first
      | rfl
      | exact respPartE_headers jparse now up
  · simp only [handlerS]
    repeat' split
    all_goals first
      | rfl
      | exact respPartS_headers jparse _ up

/-- C10: a POST whose body is absent or the empty string is parsed as the
empty JSON object, so both handlers answer with their 400 missing-specs
response (not the invalid-JSON response). -/
theorem c10_empty_body_missing_specs (jparse : String → Except String JVal)
    (apiKey : Option String) (event : Event) (up : Upstream) (now : String)
    (hm : event.httpMethod = "POST")
    (hb : event.body = none ∨ event.body = some "")
    (hp : jparse emptyObjStr = .ok (.jobj [])) :
    (handlerE jparse apiKey event up now).1 = missingSpecsRespE ∧
    (handlerS jparse apiKey event up now).1 = missingSpecsRespS := by
  simp only [emptyObjStr] at hp
  have hraw : requestRaw event = "\x7b\x7d" := by
    rcases hb with h | h <;> simp [requestRaw, h]
  constructor
  · simp [handlerE, hm, hraw, hp, getField, lookupField, truthyO]
  · simp [handlerS, hm, hraw, hp, getField, lookupField, truthyO]

/-- Witness for C10 at a concrete absent body. -/
theorem c10_empty_body_missing_specs_witness :
    (handlerE jparseFix (some "K") ⟨"POST", none⟩ (okUp "gen1") "T").1 = missingSpecsRespE ∧
    (handlerS jparseFix (some "K") ⟨"POST", none⟩ (okUp "gen1") "T").1 = missingSpecsRespS :=
  c10_empty_body_missing_specs jparseFix (some "K") ⟨"POST", none⟩ (okUp "gen1") "T"
    rfl (Or.inl rfl) rfl

/-- C7 counterexample: on a GET request the enhanced handler's 405 body lists
only POST under `allowedMethods` (OPTIONS is not enumerated), and the simple
handler's 405 body carries no method list at all. -/
theorem c7_counterexample :
    (handlerE jparseFix (some "K") ⟨"GET", none⟩ (okUp "gen1") "T").1.statusCode = 405 ∧
    getField (handlerE jparseFix (some "K") ⟨"GET", none⟩ (okUp "gen1") "T").1.body "allowedMethods" =
      some (.jarr [.jstr "POST"]) ∧
    (["POST"].contains "OPTIONS") = false ∧
    getField (handlerS jparseFix (some "K") ⟨"GET", none⟩ (okUp "gen1") "T").1.body "allowedMethods" = none :=
  ⟨rfl, rfl, rfl, rfl⟩

/-- C7 as amended: every non-POST, non-OPTIONS request gets a 405 from both
handlers, with the enhanced handler's body enumerating `allowedMethods` as
exactly `["POST"]` and the simple handler's body carrying no method list;
every OPTIONS request gets a 200 from both handlers. -/
theorem c7_amended (jparse : String → Except String JVal) (apiKey apiKey2 : Option String)
    (event event2 : Event) (up up2 : Upstream) (now now2 : String)
    (hm : event.httpMethod ≠ "POST") (ho : event.httpMethod ≠ "OPTIONS")
    (h2 : event2.httpMethod = "OPTIONS") :
    (handlerE jparse apiKey event up now).1.statusCode = 405 ∧
    getField (handlerE jparse apiKey event up now).1.body "allowedMethods" =
      some (.jarr [.jstr "POST"]) ∧
    (handlerS jparse apiKey event up now).1.statusCode = 405 ∧
    getField (handlerS jparse apiKey event up now).1.body "allowedMethods" = none ∧
    (handlerE jparse apiKey2 event2 up2 now2).1.statusCode = 200 ∧
    (handlerS jparse apiKey2 event2 up2 now2).1.statusCode = 200 := by
  have hm' : (event.httpMethod == "POST") = false := by simpa using hm
  have ho' : (event.httpMethod == "OPTIONS") = false := by simpa using ho
  have h2' : (event2.httpMethod == "OPTIONS") = true := by simpa using h2
  refine ⟨?_, ?_, ?_, ?_, ?_, ?_⟩ <;>
    simp [handlerE, handlerS, hm', ho', h2', getField, lookupField]

/-- Witness for C7 as amended, at a GET request and an OPTIONS request. -/
theorem c7_amended_witness :
    (handlerE jparseFix (some "K") ⟨"GET", none⟩ (okUp "gen1") "T").1.statusCode = 405 ∧
    getField (handlerE jparseFix (some "K") ⟨"GET", none⟩ (okUp "gen1") "T").1.body "allowedMethods" =
      some (.jarr [.jstr "POST"]) ∧
    (handlerS jparseFix (some "K") ⟨"GET", none⟩ (okUp "gen1") "T").1.statusCode = 405 ∧
    getField (handlerS jparseFix (some "K") ⟨"GET", none⟩ (okUp "gen1") "T").1.body "allowedMethods" = none ∧
    (handlerE jparseFix (some "K") ⟨"OPTIONS", none⟩ (okUp "gen1") "T").1.statusCode = 200 ∧
    (handlerS jparseFix (some "K") ⟨"OPTIONS", none⟩ (okUp "gen1") "T").1.statusCode = 200 :=
  c7_amended jparseFix (some "K") (some "K") ⟨"GET", none⟩ ⟨"OPTIONS", none⟩
    (okUp "gen1") (okUp "gen1") "T" "T" (by decide) (by decide) rfl

/-- C9 counterexample: an OPTIONS request produces a full 200 response with
zero outbound calls to the AI service, so a request does not always produce
exactly one outbound call. -/
theorem c9_counterexample :
    (handlerE jparseFix (some "K") ⟨"OPTIONS", none⟩ (okUp "gen1") "T").2.length = 0 ∧
    (handlerE jparseFix (some "K") ⟨"OPTIONS", none⟩ (okUp "gen1") "T").1.statusCode = 200 :=
  ⟨rfl, rfl⟩

/-- C9 as amended: each request makes at most one outbound call to the AI
service in either handler (one response being structural — the handlers are
functions), and a POST that passes validation with the credential set makes
exactly one. -/
theorem c9_amended (jparse : String → Except String JVal) (event : Event)
    (up : Upstream) (now : String) (fs : List (String × JVal)) (s k : String)
    (hm : event.httpMethod = "POST")
    (hb : jparse (requestRaw event) = .ok (.jobj fs))
    (hs : lookupField fs "specs" = some (.jstr s))
    (ht : jsTrim s ≠ "")
    (hl : (jsTrim s).length ≤ 2000)
    (hk2 : k ≠ "") :
    (handlerE jparse (some k) event up now).2.length = 1 ∧
    (handlerS jparse (some k) event up now).2.length = 1 ∧
    (∀ (jp2 : String → Except String JVal) (key2 : Option String) (ev2 : Event)
      (up2 : Upstream) (now2 : String),
      (handlerE jp2 key2 ev2 up2 now2).2.length ≤ 1 ∧
      (handlerS jp2 key2 ev2 up2 now2).2.length ≤ 1) := by
  refine ⟨?_, ?_, ?_⟩
  · rw [handlerE_valid jparse event up now fs s k hm hb hs ht hl hk2]
    rfl
  · rw [handlerS_valid jparse event up now fs s k hm hb hs ht hk2]
    rfl
  · intro jp2 key2 ev2 up2 now2
    constructor
    · simp only [handlerE]
      repeat' split
      all_goals simp
    · simp only [handlerS]
      repeat' split
      all_goals simp

/-- Witness for C9 as amended, at a valid POST with the credential set. -/
theorem c9_amended_witness :
    (handlerE jparseFix (some "K") ev0 (okUp "gen1") "T").2.length = 1 ∧
    (handlerS jparseFix (some "K") ev0 (okUp "gen1") "T").2.length = 1 :=
  ⟨(c9_amended jparseFix ev0 (okUp "gen1") "T" [("specs", .jstr "phone")] "phone" "K"
      rfl rfl rfl (by decide) (by decide) (by decide)).1,
   (c9_amended jparseFix ev0 (okUp "gen1") "T" [("specs", .jstr "phone")] "phone" "K"
      rfl rfl rfl (by decide) (by decide) (by decide)).2.1⟩

/-- C6 counterexample: the simple handler relays upstream status 429 but its
error message is the same fixed "AI service error" it uses for every failing
status (shown equal to the message at status 503), not a rate-limit-specific
message such as the enhanced handler's. -/
theorem c6_counterexample :
    (handlerS jparseFix (some "K") ev0 (.reply 429 "Too Many Requests" (some (.jobj []))) "T").1.statusCode = 429 ∧
    getField (handlerS jparseFix (some "K") ev0 (.reply 429 "Too Many Requests" (some (.jobj []))) "T").1.body "error" =
      some (.jstr "AI service error") ∧
    getField (handlerS jparseFix (some "K") ev0 (.reply 503 "Service Unavailable" (some (.jobj []))) "T").1.body "error" =
      getField (handlerS jparseFix (some "K") ev0 (.reply 429 "Too Many Requests" (some (.jobj []))) "T").1.body "error" ∧
    "AI service error" ≠ tooManyMsg :=
  ⟨rfl, rfl, rfl, by decide⟩

/-- C6 as amended: on a valid POST, both handlers relay the upstream failing
status; the enhanced handler maps the user message (rate-limit message at
429, access-restricted at 403, the generic unavailable message otherwise),
while the simple handler always answers with its fixed generic message. -/
theorem c6_amended (jparse : String → Except String JVal) (event : Event)
    (now : String) (fs : List (String × JVal)) (s k : String)
    (st : Nat) (stx : String) (jb : Option JVal)
    (hm : event.httpMethod = "POST")
    (hb : jparse (requestRaw event) = .ok (.jobj fs))
    (hs : lookupField fs "specs" = some (.jstr s))
    (ht : jsTrim s ≠ "")
    (hl : (jsTrim s).length ≤ 2000)
    (hk2 : k ≠ "")
    (hbad : isOkStatus st = false) :
    (handlerE jparse (some k) event (.reply st stx jb) now).1.statusCode = st ∧
    getField (handlerE jparse (some k) event (.reply st stx jb) now).1.body "error" =
      some (.jstr (if st == 429 then tooManyMsg
        else if st == 403 then accessRestrictedMsg else unavailableMsg)) ∧
    (handlerS jparse (some k) event (.reply st stx jb) now).1.statusCode = st ∧
    getField (handlerS jparse (some k) event (.reply st stx jb) now).1.body "error" =
      some (.jstr "AI service error") := by
  rw [handlerE_valid jparse event (.reply st stx jb) now fs s k hm hb hs ht hl hk2,
    handlerS_valid jparse event (.reply st stx jb) now fs s k hm hb hs ht hk2]
  refine ⟨?_, ?_, ?_, ?_⟩ <;>
    simp [respPartE, respPartS, hbad, upstreamErrRespE, upstreamErrRespS, getField, lookupField]

/-- Witness for C6 as amended at upstream status 429. -/
theorem c6_amended_witness :
    (handlerE jparseFix (some "K") ev0 (.reply 429 "TMR" (some (.jobj []))) "T").1.statusCode = 429 ∧
    getField (handlerE jparseFix (some "K") ev0 (.reply 429 "TMR" (some (.jobj []))) "T").1.body "error" =
      some (.jstr tooManyMsg) ∧
    (handlerS jparseFix (some "K") ev0 (.reply 429 "TMR" (some (.jobj []))) "T").1.statusCode = 429 ∧
    getField (handlerS jparseFix (some "K") ev0 (.reply 429 "TMR" (some (.jobj []))) "T").1.body "error" =
      some (.jstr "AI service error") := by
  have h := c6_amended jparseFix ev0 "T" [("specs", .jstr "phone")] "phone" "K"
    429 "TMR" (some (.jobj [])) rfl rfl rfl (by decide) (by decide) (by decide) (by decide)
  simpa using h

/-- With the credential unset, a validation-passing POST stops at the
configuration check of the enhanced handler: 500 and no outbound call. -/
theorem handlerE_nokey (jparse : String → Except String JVal) (apiKey : Option String)
    (event : Event)
    (up : Upstream) (now : String) (fs : List (String × JVal)) (s : String)
    (hkey : apiKey = none ∨ apiKey = some "")
    (hm : event.httpMethod = "POST")
    (hb : jparse (requestRaw event) = .ok (.jobj fs))
    (hs : lookupField fs "specs" = some (.jstr s))
    (ht : jsTrim s ≠ "")
    (hl : (jsTrim s).length ≤ 2000) :
    handlerE jparse apiKey event up now = (missingKeyRespE, []) := by
  have hse : s ≠ "" := by
    intro h
    apply ht
    rw [h]
    rfl
  have hne : (s == "") = false := by simpa using hse
  have htr : (jsTrim s == "") = false := by simpa using ht
  rcases hkey with hkey | hkey <;> subst hkey
  all_goals simp only [handlerE, hm, hb]
  all_goals simp [getField, hs, truthyO, truthy, isStringO, strValO, hne, htr,
    Nat.not_lt.mpr hl]

/-- The analogue of `handlerE_nokey` for the simple handler. -/
theorem handlerS_nokey (jparse : String → Except String JVal) (apiKey : Option String)
    (event : Event)
    (up : Upstream) (now : String) (fs : List (String × JVal)) (s : String)
    (hkey : apiKey = none ∨ apiKey = some "")
    (hm : event.httpMethod = "POST")
    (hb : jparse (requestRaw event) = .ok (.jobj fs))
    (hs : lookupField fs "specs" = some (.jstr s))
    (ht : jsTrim s ≠ "") :
    handlerS jparse apiKey event up now = (missingKeyRespS, []) := by
  have hse : s ≠ "" := by
    intro h
    apply ht
    rw [h]
    rfl
  have hne : (s == "") = false := by simpa using hse
  have htr : (jsTrim s == "") = false := by simpa using ht
  rcases hkey with hkey | hkey <;> subst hkey
  all_goals simp only [handlerS, hm, hb]
  all_goals simp [getField, hs, truthyO, truthy, isStringO, strValO, hne, htr]

/-- C2 counterexample: under a network error, node-fetch rejects with a
message embedding the request URL, which carries the credential as a query
parameter; the simple handler's top-level catch echoes that message in the
response body, so the credential value appears verbatim in the 500 body. -/
theorem c2_counterexample :
    getField (handlerS jparseFix (some "SECRETKEY123") ev0
        (.netError "connect ECONNREFUSED") "T").1.body "message" =
      some (.jstr (fetchFailMsg (apiBase ++ "SECRETKEY123") "connect ECONNREFUSED")) ∧
    containsStr (fetchFailMsg (apiBase ++ "SECRETKEY123") "connect ECONNREFUSED")
      "SECRETKEY123" = true ∧
    (handlerS jparseFix (some "SECRETKEY123") ev0
        (.netError "connect ECONNREFUSED") "T").1.statusCode = 500 :=
  ⟨rfl, rfl, rfl⟩

/-- C2 as amended: the enhanced handler never transmits the credential into a
response — its response on a validation-passing POST is identical for any two
set credentials under the same upstream behaviour (its catch-all discards the
caught message) — and with the credential unset both handlers answer 500
without issuing any outbound call; the simple handler, by contrast, echoes
caught transport-error messages, which can embed the credential-bearing
request URL. -/
theorem c2_amended (jparse : String → Except String JVal) (event : Event)
    (up : Upstream) (now : String) (fs : List (String × JVal)) (s k1 k2 : String)
    (hm : event.httpMethod = "POST")
    (hb : jparse (requestRaw event) = .ok (.jobj fs))
    (hs : lookupField fs "specs" = some (.jstr s))
    (ht : jsTrim s ≠ "")
    (hl : (jsTrim s).length ≤ 2000)
    (h1 : k1 ≠ "") (h2 : k2 ≠ "") :
    (handlerE jparse (some k1) event up now).1 = (handlerE jparse (some k2) event up now).1 ∧
    (handlerE jparse none event up now).2 = [] ∧
    (handlerS jparse none event up now).2 = [] ∧
    (handlerE jparse none event up now).1 = missingKeyRespE ∧
    (handlerS jparse none event up now).1 = missingKeyRespS := by
  refine ⟨?_, ?_, ?_, ?_, ?_⟩
  · rw [handlerE_valid jparse event up now fs s k1 hm hb hs ht hl h1,
      handlerE_valid jparse event up now fs s k2 hm hb hs ht hl h2]
  · rw [handlerE_nokey jparse none event up now fs s (Or.inl rfl) hm hb hs ht hl]
  · rw [handlerS_nokey jparse none event up now fs s (Or.inl rfl) hm hb hs ht]
  · rw [handlerE_nokey jparse none event up now fs s (Or.inl rfl) hm hb hs ht hl]
  · rw [handlerS_nokey jparse none event up now fs s (Or.inl rfl) hm hb hs ht]

/-- Witness for C2 as amended at two concrete distinct credentials. -/
theorem c2_amended_witness :
    (handlerE jparseFix (some "KEYA") ev0 (okUp "gen1") "T").1 =
      (handlerE jparseFix (some "KEYB") ev0 (okUp "gen1") "T").1 ∧
    (handlerE jparseFix none ev0 (okUp "gen1") "T").2 = [] ∧
    (handlerS jparseFix none ev0 (okUp "gen1") "T").2 = [] ∧
    (handlerE jparseFix none ev0 (okUp "gen1") "T").1 = missingKeyRespE ∧
    (handlerS jparseFix none ev0 (okUp "gen1") "T").1 = missingKeyRespS :=
  c2_amended jparseFix ev0 (okUp "gen1") "T" [("specs", .jstr "phone")] "phone"
    "KEYA" "KEYB" rfl rfl rfl (by decide) (by decide) (by decide) (by decide)

/-- C4 counterexample: on an unparseable generated text, the enhanced
handler's 500 body carries the parser message in `details` and none of its
strings contains the raw generated text, so no truncated excerpt of the raw
text is included. -/
theorem c4_counterexample :
    (handlerE jparseFix (some "K") ev0 (okUp "qqwz") "T").1 =
      aiJsonErrRespE "Unexpected token" ∧
    containsStr aiFormatErrMsg "qqwz" = false ∧
    containsStr "INVALID_AI_JSON" "qqwz" = false ∧
    containsStr "Unexpected token" "qqwz" = false :=
  ⟨rfl, rfl, rfl, rfl⟩

/-- C4 as amended: on a valid POST whose ok upstream reply carries a
generated text that fails to parse, the enhanced handler returns its 500
`INVALID_AI_JSON` body with the parser message in `details` and no raw-text
excerpt, while the simple handler returns its 500 body with the first 200
characters of the raw text under `raw_response` (an excerpt of at most 200
characters). -/
theorem c4_amended (jparse : String → Except String JVal) (event : Event)
    (now : String) (fs : List (String × JVal)) (s k g em : String)
    (st : Nat) (stx : String)
    (hm : event.httpMethod = "POST")
    (hb : jparse (requestRaw event) = .ok (.jobj fs))
    (hs : lookupField fs "specs" = some (.jstr s))
    (ht : jsTrim s ≠ "")
    (hl : (jsTrim s).length ≤ 2000)
    (hk2 : k ≠ "")
    (hok : isOkStatus st = true) (hg : g ≠ "")
    (hparse : jparse g = .error em) :
    (handlerE jparse (some k) event (.reply st stx (some (mkAiData g))) now).1 =
      aiJsonErrRespE em ∧
    (handlerS jparse (some k) event (.reply st stx (some (mkAiData g))) now).1 =
      aiJsonErrRespS g ∧
    getField (aiJsonErrRespS g).body "raw_response" = some (.jstr (jsSubstring g 200)) ∧
    (jsSubstring g 200).length ≤ 200 := by
  have hgne : (g == "") = false := by simpa using hg
  refine ⟨?_, ?_, ?_, ?_⟩
  · rw [handlerE_valid jparse event (.reply st stx (some (mkAiData g))) now fs s k
      hm hb hs ht hl hk2]
    rw [show (respPartE jparse now (.reply st stx (some (mkAiData g))),
        ([⟨apiBase ++ k, jsTrim s⟩] : List Outbound)).1 =
      respPartE jparse now (.reply st stx (some (mkAiData g))) from rfl]
    rw [respPartE_ok jparse now st stx g hok hg]
    simp [sanitizeE, hparse]
  · rw [handlerS_valid jparse event (.reply st stx (some (mkAiData g))) now fs s k
      hm hb hs ht hk2]
    simp [respPartS, hok, extractGenText_mk, truthyO, truthy, hgne, jsToString, hparse]
  · simp [aiJsonErrRespS, getField, lookupField]
  · simp only [jsSubstring, String.length]
    simp [List.length_take]

/-- Witness for C4 as amended at a concrete unparseable generated text. -/
theorem c4_amended_witness :
    (handlerE jparseFix (some "K") ev0 (.reply 200 "OK" (some (mkAiData "qqwz"))) "T").1 =
      aiJsonErrRespE "Unexpected token" ∧
    (handlerS jparseFix (some "K") ev0 (.reply 200 "OK" (some (mkAiData "qqwz"))) "T").1 =
      aiJsonErrRespS "qqwz" ∧
    getField (aiJsonErrRespS "qqwz").body "raw_response" = some (.jstr (jsSubstring "qqwz" 200)) ∧
    (jsSubstring "qqwz" 200).length ≤ 200 :=
  c4_amended jparseFix ev0 "T" [("specs", .jstr "phone")] "phone" "K" "qqwz"
    "Unexpected token" 200 "OK" rfl rfl rfl (by decide) (by decide) (by decide)
    (by decide) (by decide) rfl

/-- The specs-validation failure condition of the enhanced handler: falsy,
non-string, or empty after trim. -/
def specsBad (fs : List (String × JVal)) : Bool :=
  !(truthyO (lookupField fs "specs")) || !(isStringO (lookupField fs "specs")) ||
    (jsTrim (strValO (lookupField fs "specs")) == "")

/-- The length-limit failure condition of the enhanced handler. -/
def specsTooLong (fs : List (String × JVal)) : Bool :=
  decide (2000 < (jsTrim (strValO (lookupField fs "specs"))).length)

/-- On a POST whose body parses to an object failing the specs validation,
the enhanced handler answers with the missing-specs 400. -/
theorem handlerE_specsBad (jparse : String → Except String JVal) (apiKey : Option String)
    (event : Event) (up : Upstream) (now : String) (fs : List (String × JVal))
    (hm : event.httpMethod = "POST")
    (hb : jparse (requestRaw event) = .ok (.jobj fs))
    (hbad : specsBad fs = true) :
    handlerE jparse apiKey event up now = (missingSpecsRespE, []) := by
  simp only [specsBad] at hbad
  simp only [handlerE, hm, hb]
  simp [getField, hbad]

/-- On a POST whose body parses to an object passing the specs validation but
exceeding the length bound, the enhanced handler answers with the too-long
400. -/
theorem handlerE_specsTooLong (jparse : String → Except String JVal) (apiKey : Option String)
    (event : Event) (up : Upstream) (now : String) (fs : List (String × JVal))
    (hm : event.httpMethod = "POST")
    (hb : jparse (requestRaw event) = .ok (.jobj fs))
    (hgood : specsBad fs = false)
    (hlong : specsTooLong fs = true) :
    handlerE jparse apiKey event up now = (specsTooLongRespE, []) := by
  simp only [specsBad] at hgood
  simp only [specsTooLong, decide_eq_true_eq] at hlong
  simp only [handlerE, hm, hb]
  simp [getField, hgood, hlong]

/-- No post-validation branch of the enhanced handler produces either of the
two specs-validation 400 responses. -/
theorem respPartE_not_validation (jparse : String → Except String JVal) (now : String)
    (up : Upstream) :
    respPartE jparse now up ≠ missingSpecsRespE ∧
    respPartE jparse now up ≠ specsTooLongRespE := by
  have hstat : ∀ r : Response, r.statusCode ≠ 400 →
      r ≠ missingSpecsRespE ∧ r ≠ specsTooLongRespE := by
    intro r hr
    constructor <;> (intro h; exact hr (by rw [h]; rfl))
  cases up with
  | netError r =>
    refine hstat _ ?_
    exact (by decide : (500 : Nat) ≠ 400)
  | reply st stx jb =>
    simp only [respPartE]
    split
    · refine ⟨fun h => ?_, fun h => ?_⟩
      all_goals
        have h2 := congrArg (fun r => getField r.body "code") h
        simp [upstreamErrRespE, missingSpecsRespE, specsTooLongRespE,
          getField, lookupField] at h2
    · cases jb with
      | none =>
        refine hstat _ ?_
        exact (by decide : (500 : Nat) ≠ 400)
      | some aiData =>
        simp only [genPathE]
        split
        · refine hstat _ ?_
          exact (by decide : (500 : Nat) ≠ 400)
        · split
          · refine hstat _ ?_
            exact (by decide : (500 : Nat) ≠ 400)
          · refine hstat _ ?_
            exact (by decide : (200 : Nat) ≠ 400)

/-- C5 counterexample: with a valid specs string ("phone": truthy, a string,
nonempty after trim, within the length bound) the enhanced handler still
returns status 400 when the upstream service itself answers 400, because the
upstream status is relayed; so status 400 does not imply invalid specs. -/
theorem c5_counterexample :
    truthyO (getField (.jobj [("specs", .jstr "phone")]) "specs") = true ∧
    isStringO (getField (.jobj [("specs", .jstr "phone")]) "specs") = true ∧
    jsTrim "phone" ≠ "" ∧
    (jsTrim "phone").length ≤ 2000 ∧
    (handlerE jparseFix (some "K") ev0 (.reply 400 "Bad Request" (some (.jobj []))) "T").1.statusCode = 400 :=
  ⟨rfl, rfl, by decide, by decide, rfl⟩

/-- C5 as amended: for a POST whose body parses to a non-null JSON object,
the enhanced handler returns one of its two specs-validation 400 responses
exactly when specs is absent, falsy, not a string, empty after trimming, or
longer than 2000 characters after trimming; otherwise the pipeline proceeds
and any outbound call embeds the trimmed specs string.  (A body parsing to
JSON null instead raises a TypeError at destructuring and yields the 500
catch-all, and an upstream reply with status 400 is still relayed as a 400
response outside the validation stage.) -/
theorem c5_amended (jparse : String → Except String JVal) (apiKey : Option String)
    (event : Event) (up : Upstream) (now : String) (fs : List (String × JVal))
    (hm : event.httpMethod = "POST")
    (hb : jparse (requestRaw event) = .ok (.jobj fs)) :
    (((handlerE jparse apiKey event up now).1 = missingSpecsRespE ∨
      (handlerE jparse apiKey event up now).1 = specsTooLongRespE) ↔
      (specsBad fs || specsTooLong fs) = true) ∧
    ((specsBad fs || specsTooLong fs) = false → ∀ k : String, apiKey = some k → k ≠ "" →
      (handlerE jparse apiKey event up now).2 =
        [⟨apiBase ++ k, jsTrim (strValO (lookupField fs "specs"))⟩]) := by
  rcases Bool.eq_false_or_eq_true (specsBad fs) with hsb | hsb
  on_goal 1 =>
    have hh := handlerE_specsBad jparse apiKey event up now fs hm hb hsb
    constructor
    · rw [hh]
      simp [hsb]
    · intro hc
      simp [hsb] at hc
  rcases Bool.eq_false_or_eq_true (specsTooLong fs) with htl | htl
  on_goal 1 =>
    have hh := handlerE_specsTooLong jparse apiKey event up now fs hm hb hsb htl
    constructor
    · rw [hh]
      simp [htl]
    · intro hc
      simp [htl] at hc
  ·
      have hparts : ∃ s, lookupField fs "specs" = some (.jstr s) ∧ jsTrim s ≠ "" ∧
          (jsTrim s).length ≤ 2000 := by
        have hsb2 := hsb
        have htl2 := htl
        unfold specsBad at hsb2
        unfold specsTooLong at htl2
        cases hres : lookupField fs "specs" with
        | none => rw [hres] at hsb2; simp [truthyO, isStringO] at hsb2
        | some v =>
          cases v with
          | jstr s =>
            rw [hres] at hsb2 htl2
            simp only [Bool.or_eq_false_iff] at hsb2
            obtain ⟨⟨-, -⟩, h3⟩ := hsb2
            simp only [decide_eq_false_iff_not, Nat.not_lt] at htl2
            refine ⟨s, hres ▸ rfl, ?_, ?_⟩
            · simpa [strValO] using h3
            · simpa [strValO] using htl2
          | jnull => rw [hres] at hsb2; simp [truthyO, truthy, isStringO] at hsb2
          | jbool b => rw [hres] at hsb2; simp [truthyO, truthy, isStringO] at hsb2
          | jnum q => rw [hres] at hsb2; simp [truthyO, truthy, isStringO] at hsb2
          | jarr xs => rw [hres] at hsb2; simp [truthyO, truthy, isStringO] at hsb2
          | jobj gs => rw [hres] at hsb2; simp [truthyO, truthy, isStringO] at hsb2
      obtain ⟨s, hs, ht, hl⟩ := hparts
      constructor
      · constructor
        · intro h
          exfalso
          rcases hkey : apiKey with _ | k
          · rw [hkey] at h
            rw [handlerE_nokey jparse none event up now fs s (Or.inl rfl) hm hb hs ht hl] at h
            rcases h with h | h <;>
              simp [missingKeyRespE, missingSpecsRespE, specsTooLongRespE] at h
          · by_cases hk : k = ""
            · subst hk
              rw [hkey] at h
              rw [handlerE_nokey jparse (some "") event up now fs s (Or.inr rfl) hm hb hs ht hl] at h
              rcases h with h | h <;>
                simp [missingKeyRespE, missingSpecsRespE, specsTooLongRespE] at h
            · rw [hkey] at h
              rw [handlerE_valid jparse event up now fs s k hm hb hs ht hl hk] at h
              rcases h with h | h
              · exact (respPartE_not_validation jparse now up).1 h
              · exact (respPartE_not_validation jparse now up).2 h
        · intro hc
          simp [hsb, htl] at hc
      · intro _ k hk hkne
        subst hk
        rw [handlerE_valid jparse event up now fs s k hm hb hs ht hl hkne, hs]
        simp [strValO]

/-- Witness for C5 as amended: the validation characterization at a concrete
valid POST (where neither failure condition holds and the handler does not
return a validation 400). -/
theorem c5_amended_witness :
    ((handlerE jparseFix (some "K") ev0 (okUp "gen1") "T").1 = missingSpecsRespE ∨
      (handlerE jparseFix (some "K") ev0 (okUp "gen1") "T").1 = specsTooLongRespE) ↔
      (specsBad [("specs", .jstr "phone")] || specsTooLong [("specs", .jstr "phone")]) = true :=
  (c5_amended jparseFix (some "K") ev0 (okUp "gen1") "T" [("specs", .jstr "phone")] rfl rfl).1

theorem nonnegNum_elim (o : Option JVal) (h : nonnegNum o = true) :
    ∃ q : ℚ, o = some (.jnum q) ∧ 0 ≤ q := by
  cases o with
  | none => simp [nonnegNum] at h
  | some v =>
    cases v with
    | jnum q =>
      refine ⟨q, rfl, ?_⟩
      simpa [nonnegNum] using h
    | jnull => simp [nonnegNum] at h
    | jbool b => simp [nonnegNum] at h
    | jstr t => simp [nonnegNum] at h
    | jarr xs => simp [nonnegNum] at h
    | jobj gs => simp [nonnegNum] at h

theorem goodRange_elim (o : Option JVal) (h : goodRange o = true) :
    ∃ rs a b, o = some (.jobj rs) ∧ lookupField rs "min" = some (.jnum a) ∧
      lookupField rs "max" = some (.jnum b) ∧ 0 ≤ a ∧ 0 ≤ b ∧ a ≤ b := by
  cases o with
  | none => simp [goodRange] at h
  | some v =>
    cases v with
    | jobj rs =>
      unfold goodRange at h
      simp only [Bool.and_eq_true] at h
      obtain ⟨⟨h1, h2⟩, h3⟩ := h
      obtain ⟨a, hmin, ha⟩ := nonnegNum_elim _ h1
      obtain ⟨b, hmax, hb⟩ := nonnegNum_elim _ h2
      rw [hmin, hmax] at h3
      simp only [rangeLe, decide_eq_true_eq] at h3
      exact ⟨rs, a, b, rfl, hmin, hmax, ha, hb, h3⟩
    | jnull => simp [goodRange] at h
    | jbool b => simp [goodRange] at h
    | jnum q => simp [goodRange] at h
    | jstr t => simp [goodRange] at h
    | jarr xs => simp [goodRange] at h

/-- Reading a field other than `last_updated` is unaffected by the timestamp
injection. -/
theorem getField_inject_ne (rfs : List (String × JVal)) (now f : String)
    (h : (f == "last_updated") = false) :
    getField (injectTimestamp (.jobj rfs) now) f = lookupField rfs f := by
  unfold injectTimestamp
  simp only [getField]
  rcases Bool.eq_false_or_eq_true (truthyO (lookupField rfs "last_updated")) with hlu | hlu
  · simp [hlu]
  · simp [hlu, setProp, lookup_set_ne _ _ _ _ h]

/-- On an object payload, the sanitation of the enhanced handler injects the
timestamp and then runs the two field checks on the repaired object. -/
theorem sanitizeE_obj (jparse : String → Except String JVal) (now g : String)
    (rfs : List (String × JVal)) (hres : jparse g = .ok (.jobj rfs)) :
    sanitizeE jparse now g =
      (if !(truthyO (getField (injectTimestamp (.jobj rfs) now) "predicted_price_inr")) ||
          !(truthyO (getField (injectTimestamp (.jobj rfs) now) "range_inr")) ||
          !(truthyO (getField (injectTimestamp (.jobj rfs) now) "product")) then
        .error missingFieldsMsg
      else if ltZeroO (getField (injectTimestamp (.jobj rfs) now) "predicted_price_inr") ||
          ltZeroO (optGet (getField (injectTimestamp (.jobj rfs) now) "range_inr") "min") ||
          ltZeroO (optGet (getField (injectTimestamp (.jobj rfs) now) "range_inr") "max") then
        .error negativePricesMsg
      else .ok (injectTimestamp (.jobj rfs) now)) := by
  unfold sanitizeE injectTimestamp
  rw [hres]
  simp only [readProp, getField]
  rcases Bool.eq_false_or_eq_true (truthyO (lookupField rfs "last_updated")) with hlu | hlu
  · simp [hlu, setProp, getField]
  · simp [hlu, setProp, getField]

/-- On an ok upstream reply with a nonempty generated text, the enhanced
handler's response is decided by `sanitizeE` on that text. -/
theorem handlerE_sanitize (jparse : String → Except String JVal) (event : Event)
    (now : String) (fs : List (String × JVal)) (s k g : String) (st : Nat) (stx : String)
    (hm : event.httpMethod = "POST")
    (hb : jparse (requestRaw event) = .ok (.jobj fs))
    (hs : lookupField fs "specs" = some (.jstr s))
    (ht : jsTrim s ≠ "")
    (hl : (jsTrim s).length ≤ 2000)
    (hk2 : k ≠ "")
    (hok : isOkStatus st = true) (hg : g ≠ "") :
    (handlerE jparse (some k) event (.reply st stx (some (mkAiData g))) now).1 =
      (match sanitizeE jparse now g with
       | .error em => aiJsonErrRespE em
       | .ok r => ⟨200, headers, r⟩) := by
  rw [handlerE_valid jparse event (.reply st stx (some (mkAiData g))) now fs s k
    hm hb hs ht hl hk2]
  dsimp only
  rw [respPartE_ok jparse now st stx g hok hg]

/-- C3 counterexample: a payload whose `range_inr.min` is negative but whose
`product` is missing triggers the missing-fields check first, so the handler
reports the missing-fields error kind, not the negative-price kind the claim
requires for every payload containing a negative value. -/
theorem c3_counterexample :
    ltZeroO (optGet (getField prNeg "range_inr") "min") = true ∧
    (handlerE jparseFix (some "K") ev0 (okUp "genNeg") "T").1 =
      aiJsonErrRespE missingFieldsMsg ∧
    missingFieldsMsg ≠ negativePricesMsg :=
  ⟨rfl, rfl, by decide⟩

/-- C3 as amended: for an object payload on the sanitation path, the checks
run in order — a payload missing (by truthiness) any of
`predicted_price_inr`, `range_inr`, `product` yields the 500 with the
missing-fields message even if it also contains a negative price, and a
payload with all three present and a negative `predicted_price_inr`,
`range_inr.min`, or `range_inr.max` yields the 500 with the negative-prices
message; both surface under the single `INVALID_AI_JSON` code, distinguished
by the thrown message in `details`. -/
theorem c3_amended (jparse : String → Except String JVal) (event : Event)
    (now : String) (fs : List (String × JVal)) (s k g : String)
    (st : Nat) (stx : String) (rfs : List (String × JVal))
    (hm : event.httpMethod = "POST")
    (hb : jparse (requestRaw event) = .ok (.jobj fs))
    (hs : lookupField fs "specs" = some (.jstr s))
    (ht : jsTrim s ≠ "")
    (hl : (jsTrim s).length ≤ 2000)
    (hk2 : k ≠ "")
    (hok : isOkStatus st = true) (hg : g ≠ "")
    (hres : jparse g = .ok (.jobj rfs)) :
    ((!(truthyO (lookupField rfs "predicted_price_inr")) ||
      !(truthyO (lookupField rfs "range_inr")) ||
      !(truthyO (lookupField rfs "product"))) = true →
      (handlerE jparse (some k) event (.reply st stx (some (mkAiData g))) now).1 =
        aiJsonErrRespE missingFieldsMsg) ∧
    ((!(truthyO (lookupField rfs "predicted_price_inr")) ||
      !(truthyO (lookupField rfs "range_inr")) ||
      !(truthyO (lookupField rfs "product"))) = false →
      (ltZeroO (lookupField rfs "predicted_price_inr") ||
        ltZeroO (optGet (lookupField rfs "range_inr") "min") ||
        ltZeroO (optGet (lookupField rfs "range_inr") "max")) = true →
      (handlerE jparse (some k) event (.reply st stx (some (mkAiData g))) now).1 =
        aiJsonErrRespE negativePricesMsg) := by
  rw [handlerE_sanitize jparse event now fs s k g st stx hm hb hs ht hl hk2 hok hg,
    sanitizeE_obj jparse now g rfs hres,
    getField_inject_ne rfs now "predicted_price_inr" (by decide),
    getField_inject_ne rfs now "range_inr" (by decide),
    getField_inject_ne rfs now "product" (by decide)]
  constructor
  · intro hcond
    simp [hcond]
  · intro hcond hneg
    simp [hcond, hneg]

/-- Witness for C3 as amended: with all three fields present and a negative
`range_inr.min`, the handler reports the negative-prices message. -/
theorem c3_amended_witness :
    (handlerE jparseFix (some "K") ev0 (.reply 200 "OK" (some (mkAiData "genNeg2"))) "T").1 =
      aiJsonErrRespE negativePricesMsg :=
  (c3_amended jparseFix ev0 "T" [("specs", .jstr "phone")] "phone" "K" "genNeg2"
    200 "OK" prNeg2Fields rfl rfl rfl (by decide) (by decide) (by decide) (by decide)
    (by decide) rfl).2 (by decide) (by decide)

/-- C1 counterexample: a fully schema-conforming result whose
`predicted_price_inr` is 0 (which section 3 allows: the schema only requires
the price to be nonnegative) is rejected by the truthiness-based presence
check, so the handler answers 500 with the missing-fields diagnostic instead
of the claimed 200. -/
theorem c1_counterexample :
    conformsPR pr0 = true ∧
    (handlerE jparseFix (some "K") ev0 (okUp "gen0") "T").1 =
      aiJsonErrRespE missingFieldsMsg ∧
    (handlerE jparseFix (some "K") ev0 (okUp "gen0") "T").1.statusCode = 500 :=
  ⟨by decide, rfl, rfl⟩

/-- C1 as amended: for a valid POST whose ok upstream reply parses to a
schema-conforming object that additionally has a truthy (nonzero)
`predicted_price_inr` and a truthy (non-empty) `product`, the enhanced
handler returns 200 with that object unchanged except that `last_updated`
is set to the current timestamp when it is absent or falsy. -/
theorem c1_amended (jparse : String → Except String JVal) (event : Event)
    (now : String) (fs : List (String × JVal)) (s k g : String)
    (st : Nat) (stx : String) (rfs : List (String × JVal))
    (hm : event.httpMethod = "POST")
    (hb : jparse (requestRaw event) = .ok (.jobj fs))
    (hs : lookupField fs "specs" = some (.jstr s))
    (ht : jsTrim s ≠ "")
    (hl : (jsTrim s).length ≤ 2000)
    (hk2 : k ≠ "")
    (hok : isOkStatus st = true) (hg : g ≠ "")
    (hres : jparse g = .ok (.jobj rfs))
    (hconf : conformsPR (.jobj rfs) = true)
    (hpp : truthyO (lookupField rfs "predicted_price_inr") = true)
    (hprod : truthyO (lookupField rfs "product") = true) :
    (handlerE jparse (some k) event (.reply st stx (some (mkAiData g))) now).1 =
      ⟨200, headers, injectTimestamp (.jobj rfs) now⟩ := by
  simp only [conformsPR, Bool.and_eq_true] at hconf
  obtain ⟨⟨⟨⟨⟨⟨⟨⟨⟨h1, h2⟩, h3⟩, h4⟩, h5⟩, h6⟩, h7⟩, h8⟩, h9⟩, h10⟩ := hconf
  obtain ⟨q, hpq, hq0⟩ := nonnegNum_elim _ h1
  obtain ⟨rs, a, b, hrr, hmin, hmax, ha, hb2, hab⟩ := goodRange_elim _ h2
  have hriT : truthyO (lookupField rfs "range_inr") = true := by
    rw [hrr]
    rfl
  have hzpp : ltZeroO (lookupField rfs "predicted_price_inr") = false := by
    rw [hpq]
    simp only [ltZeroO, decide_eq_false_iff_not]
    exact not_lt.mpr hq0
  have hzmin : ltZeroO (optGet (lookupField rfs "range_inr") "min") = false := by
    rw [hrr]
    simp only [optGet, hmin, ltZeroO, decide_eq_false_iff_not]
    exact not_lt.mpr ha
  have hzmax : ltZeroO (optGet (lookupField rfs "range_inr") "max") = false := by
    rw [hrr]
    simp only [optGet, hmax, ltZeroO, decide_eq_false_iff_not]
    exact not_lt.mpr hb2
  rw [handlerE_sanitize jparse event now fs s k g st stx hm hb hs ht hl hk2 hok hg,
    sanitizeE_obj jparse now g rfs hres,
    getField_inject_ne rfs now "predicted_price_inr" (by decide),
    getField_inject_ne rfs now "range_inr" (by decide),
    getField_inject_ne rfs now "product" (by decide)]
  simp [hpp, hriT, hprod, hzpp, hzmin, hzmax]

/-- Witness for C1 as amended at a concrete conforming result with a positive
price; the timestamp is injected because `last_updated` is absent. -/
theorem c1_amended_witness :
    (handlerE jparseFix (some "K") ev0 (.reply 200 "OK" (some (mkAiData "gen1"))) "T").1 =
      ⟨200, headers, injectTimestamp (.jobj pr1Fields) "T"⟩ :=
  c1_amended jparseFix ev0 "T" [("specs", .jstr "phone")] "phone" "K" "gen1"
    200 "OK" pr1Fields rfl rfl rfl (by decide) (by decide) (by decide) (by decide)
    (by decide) rfl (by decide) (by decide) (by decide)
